import Mathlib

/-!
Shallow embedding of `generate_training_data.py` (MixDoctor synthetic
training-data generators).  Random draws from numpy distributions are
modelled as explicit input streams of rational numbers; each generator is
the exact deterministic function of its draws that the Python source
computes (clipping, threshold labeling, confidence attenuation, scoring).
Machine floats are idealised as exact rationals.
-/

namespace MixDoctor

/-- `np.clip(x, lo, hi)`: clamp `x` into `[lo, hi]`. -/
def npclip (x lo hi : ℚ) : ℚ := min (max x lo) hi

/-! ## Stereo width generator (`generate_stereo_width_data`) -/

/-- One row's raw random draws for the stereo width generator:
`stereoWidth ~ Beta(5,5)`, `correlationRaw ~ Normal(0.7,0.2)` (before clip),
`leftRightBalanceRaw ~ Normal(0,0.1)` (before clip), `midSideRatio ~ Gamma(2,2)`,
`u ~ np.random.random()` for the confidence noise. -/
structure StereoDraw where
  stereoWidth : ℚ
  correlationRaw : ℚ
  leftRightBalanceRaw : ℚ
  midSideRatio : ℚ
  u : ℚ

/-- A row of the stereo width dataset, schema
`{stereoWidth, correlation, leftRightBalance, midSideRatio, classification, confidence}`. -/
structure StereoRow where
  stereoWidth : ℚ
  correlation : ℚ
  leftRightBalance : ℚ
  midSideRatio : ℚ
  classification : ℕ
  confidence : ℚ

/-- The loop body of `generate_stereo_width_data`: clip the normal draws,
classify by `stereoWidth` thresholds 0.3 / 0.7, draw a base confidence in the
matching branch, attenuate by 0.7 inside the boundary bands. -/
def stereoRow (d : StereoDraw) : StereoRow :=
  let stereo_width := d.stereoWidth
  let correlation := npclip d.correlationRaw (-1) 1
  let left_right_balance := npclip d.leftRightBalanceRaw (-1) 1
  let mid_side_ratio := d.midSideRatio
  let cls_conf : ℕ × ℚ :=
    if stereo_width < 0.3 then (0, 0.7 + d.u * 0.25)
    else if stereo_width > 0.7 then (2, 0.7 + d.u * 0.25)
    else (1, 0.8 + d.u * 0.2)
  let confidence :=
    if (0.28 < stereo_width ∧ stereo_width < 0.32) ∨
       (0.68 < stereo_width ∧ stereo_width < 0.72)
    then cls_conf.2 * 0.7 else cls_conf.2
  { stereoWidth := stereo_width
    correlation := correlation
    leftRightBalance := left_right_balance
    midSideRatio := mid_side_ratio
    classification := cls_conf.1
    confidence := confidence }

/-- `generate_stereo_width_data(n_samples)`: `for _ in range(n_samples)` append
one row; `range` of a non-positive count is empty, so the function never raises
and returns a dataset of `max n 0` rows. -/
def generate_stereo_width_data (draws : ℕ → StereoDraw) (n_samples : ℤ) :
    List StereoRow :=
  (List.range n_samples.toNat).map (fun i => stereoRow (draws i))

/-! ## Phase problem generator (`generate_phase_problem_data`) -/

/-- One row's raw draws for the phase problem generator. -/
structure PhaseDraw where
  correlationRaw : ℚ
  midSideRatio : ℚ
  stereoWidth : ℚ
  u : ℚ

/-- A row of the phase problem dataset, schema
`{correlation, midSideRatio, stereoWidth, hasIssue, severity, confidence}`. -/
structure PhaseRow where
  correlation : ℚ
  midSideRatio : ℚ
  stereoWidth : ℚ
  hasIssue : ℕ
  severity : ℕ
  confidence : ℚ

/-- The loop body of `generate_phase_problem_data`: clip the correlation,
label by the 0.3 / 0 thresholds, attenuate confidence by 0.75 in (0.25,0.35). -/
def phaseRow (d : PhaseDraw) : PhaseRow :=
  let correlation := npclip d.correlationRaw (-1) 1
  let isc : ℕ × ℕ × ℚ :=
    if correlation < 0.3 then
      if correlation < 0 then (1, 2, 0.85 + d.u * 0.15)
      else (1, 1, 0.7 + d.u * 0.25)
    else (0, 0, 0.85 + d.u * 0.15)
  let confidence :=
    if 0.25 < correlation ∧ correlation < 0.35 then isc.2.2 * 0.75 else isc.2.2
  { correlation := correlation
    midSideRatio := d.midSideRatio
    stereoWidth := d.stereoWidth
    hasIssue := isc.1
    severity := isc.2.1
    confidence := confidence }

/-- `generate_phase_problem_data(n_samples)`. -/
def generate_phase_problem_data (draws : ℕ → PhaseDraw) (n_samples : ℤ) :
    List PhaseRow :=
  (List.range n_samples.toNat).map (fun i => phaseRow (draws i))

/-! ## Frequency balance generator (`generate_frequency_balance_data`) -/

/-- One row's raw draws: `(r0,…,r4) ~ Dirichlet(5,3,6,4,2.5)` (the five band
ratios) and `noise ~ Normal(0,5)` for the score. -/
structure FreqDraw where
  r0 : ℚ
  r1 : ℚ
  r2 : ℚ
  r3 : ℚ
  r4 : ℚ
  noise : ℚ

/-- A row of the frequency balance dataset, schema
`{bassRatio, lowMidRatio, midRatio, highMidRatio, highRatio, balanceScore, hasIssue}`. -/
structure FreqRow where
  bassRatio : ℚ
  lowMidRatio : ℚ
  midRatio : ℚ
  highMidRatio : ℚ
  highRatio : ℚ
  balanceScore : ℚ
  hasIssue : ℕ

/-- The ideal band-ratio reference vector `[0.25, 0.15, 0.30, 0.18, 0.12]`
as in the source (`ideal_bass` … `ideal_high`). -/
def ideal_bass : ℚ := 0.25

def ideal_low_mid : ℚ := 0.15

def ideal_mid : ℚ := 0.30

def ideal_high_mid : ℚ := 0.18

def ideal_high : ℚ := 0.12

/-- The `deviations` list of the source: per-band absolute deviation from ideal. -/
def freqDeviations (d : FreqDraw) : List ℚ :=
  [|d.r0 - ideal_bass|, |d.r1 - ideal_low_mid|, |d.r2 - ideal_mid|,
   |d.r3 - ideal_high_mid|, |d.r4 - ideal_high|]

/-- `avg_deviation = np.mean(deviations)`. -/
def avgDeviation (d : FreqDraw) : ℚ := (freqDeviations d).sum / 5

/-- `max_deviation = np.max(deviations)`. -/
def maxDeviation (d : FreqDraw) : ℚ :=
  max |d.r0 - ideal_bass| (max |d.r1 - ideal_low_mid| (max |d.r2 - ideal_mid|
    (max |d.r3 - ideal_high_mid| |d.r4 - ideal_high|)))

/-- `balance_score` before the Normal(0,5) noise is added:
`100 * (1 - min(avg_deviation * 3, 1))`. -/
def freqBalancePreNoise (d : FreqDraw) : ℚ :=
  100 * (1 - min (avgDeviation d * 3) 1)

/-- The loop body of `generate_frequency_balance_data`. -/
def freqRow (d : FreqDraw) : FreqRow :=
  let balance_score := freqBalancePreNoise d + d.noise
  let balance_score := npclip balance_score 0 100
  let has_issue : ℕ := if maxDeviation d > 0.15 then 1 else 0
  { bassRatio := d.r0
    lowMidRatio := d.r1
    midRatio := d.r2
    highMidRatio := d.r3
    highRatio := d.r4
    balanceScore := balance_score
    hasIssue := has_issue }

/-- `generate_frequency_balance_data(n_samples)`. -/
def generate_frequency_balance_data (draws : ℕ → FreqDraw) (n_samples : ℤ) :
    List FreqRow :=
  (List.range n_samples.toNat).map (fun i => freqRow (draws i))

/-! ## Overall quality generator (`generate_overall_quality_data`) -/

/-- One row's raw draws: `stereoWidth ~ Beta(5,5)`,
`correlationRaw ~ Normal(0.7,0.2)`, `dynamicRangeRaw ~ Normal(12,4)`,
`peakLevelRaw ~ Normal(-3,2)` (all before their clips),
`(r0,…,r4) ~ Dirichlet(5,3,6,4,2.5)`, `noise ~ Normal(0,3)`. -/
structure QualityDraw where
  stereoWidth : ℚ
  correlationRaw : ℚ
  dynamicRangeRaw : ℚ
  peakLevelRaw : ℚ
  r0 : ℚ
  r1 : ℚ
  r2 : ℚ
  r3 : ℚ
  r4 : ℚ
  noise : ℚ

/-- A row of the overall quality dataset, schema `{stereoWidth, correlation,
dynamicRange, peakLevel, bassRatio, …, highRatio, overallScore}`. -/
structure QualityRow where
  stereoWidth : ℚ
  correlation : ℚ
  dynamicRange : ℚ
  peakLevel : ℚ
  bassRatio : ℚ
  lowMidRatio : ℚ
  midRatio : ℚ
  highMidRatio : ℚ
  highRatio : ℚ
  overallScore : ℚ

/-- The quality score before the Normal(0,3) noise and final clip: start at
100, subtract the stereo-width, phase, dynamic-range and peak-level penalties
in order, then subtract `mean(|ratios - ideal_ratios|) * 50`, exactly as the
source's straight-line `score` computation. -/
def overallPreNoise (d : QualityDraw) : ℚ :=
  let stereo_width := d.stereoWidth
  let correlation := npclip d.correlationRaw (-1) 1
  let dynamic_range := npclip d.dynamicRangeRaw 2 25
  let peak_level := npclip d.peakLevelRaw (-20) 0
  let score : ℚ := 100
  let score := if stereo_width < 0.3 ∨ stereo_width > 0.7 then score - 15 else score
  let score :=
    if correlation < 0 then score - 30
    else if correlation < 0.3 then score - 15
    else score
  let score := if dynamic_range < 6 ∨ dynamic_range > 18 then score - 10 else score
  let score := if peak_level > -1 then score - 10 else score
  let freq_deviation :=
    (|d.r0 - 0.25| + |d.r1 - 0.15| + |d.r2 - 0.30| + |d.r3 - 0.18| + |d.r4 - 0.12|) / 5
  score - freq_deviation * 50

/-- The loop body of `generate_overall_quality_data`. -/
def qualityRow (d : QualityDraw) : QualityRow :=
  { stereoWidth := d.stereoWidth
    correlation := npclip d.correlationRaw (-1) 1
    dynamicRange := npclip d.dynamicRangeRaw 2 25
    peakLevel := npclip d.peakLevelRaw (-20) 0
    bassRatio := d.r0
    lowMidRatio := d.r1
    midRatio := d.r2
    highMidRatio := d.r3
    highRatio := d.r4
    overallScore := npclip (overallPreNoise d + d.noise) 0 100 }

/-- `generate_overall_quality_data(n_samples)`. -/
def generate_overall_quality_data (draws : ℕ → QualityDraw) (n_samples : ℤ) :
    List QualityRow :=
  (List.range n_samples.toNat).map (fun i => qualityRow (draws i))

/-! ## Spec-side re-derivation functions

These follow the spec's wording of the labeling rules, to be compared with
the row functions derived from the source. -/

/-- Spec rule: classification is `tooNarrow` (0) if `stereoWidth < 0.3`,
`tooWide` (2) if `stereoWidth > 0.7`, else `good` (1). -/
def spec_classifyWidth (w : ℚ) : ℕ :=
  if w < 0.3 then 0 else if w > 0.7 then 2 else 1

/-- Spec rule: `hasIssue = true` (1) iff `correlation < 0.3`. -/
def spec_phaseHasIssue (c : ℚ) : ℕ := if c < 0.3 then 1 else 0

/-- Spec rule: severity is `severe` (2) when `correlation < 0`, `moderate` (1)
when `0 ≤ correlation < 0.3`, else `none` (0). -/
def spec_phaseSeverity (c : ℚ) : ℕ :=
  if c < 0 then 2 else if c < 0.3 then 1 else 0

/-- Spec penalty: 15 if `stereoWidth` is outside `[0.3, 0.7]`. -/
def spec_widthPenalty (w : ℚ) : ℚ := if w < 0.3 ∨ w > 0.7 then 15 else 0

/-- Spec penalty: 30 if `correlation < 0`, else 15 if `correlation < 0.3`, else 0. -/
def spec_phasePenalty (c : ℚ) : ℚ :=
  if c < 0 then 30 else if c < 0.3 then 15 else 0

/-- Spec penalty: 10 if `dynamicRange` is outside `[6, 18]`. -/
def spec_dynamicRangePenalty (dr : ℚ) : ℚ := if dr < 6 ∨ dr > 18 then 10 else 0

/-- Spec penalty: 10 if `peakLevel > -1`. -/
def spec_peakPenalty (p : ℚ) : ℚ := if p > -1 then 10 else 0

/-- Spec penalty: `mean(|ratio_i - ideal_i|) * 50` against `[0.25,0.15,0.30,0.18,0.12]`. -/
def spec_freqPenalty (r0 r1 r2 r3 r4 : ℚ) : ℚ :=
  (|r0 - 0.25| + |r1 - 0.15| + |r2 - 0.30| + |r3 - 0.18| + |r4 - 0.12|) / 5 * 50

/-! ## Distribution-support and row-validity predicates -/

/-- Support of the stereo width generator's draws: a Beta(5,5) sample lies in
`[0,1]`, a Gamma(2,2) sample is nonnegative, `np.random.random()` lies in `[0,1)`.
The unclipped normal draws are unconstrained. -/
def StereoDraw.Valid (d : StereoDraw) : Prop :=
  0 ≤ d.stereoWidth ∧ d.stereoWidth ≤ 1 ∧ 0 ≤ d.midSideRatio ∧ 0 ≤ d.u ∧ d.u < 1

instance (d : StereoDraw) : Decidable d.Valid := by
  unfold StereoDraw.Valid; infer_instance

/-- Row-validity invariant for a stereo width row: declared feature domains,
confidence in `(0,1]`, classification in `{0,1,2}`. -/
def StereoRow.Valid (r : StereoRow) : Prop :=
  0 ≤ r.stereoWidth ∧ r.stereoWidth ≤ 1 ∧
  -1 ≤ r.correlation ∧ r.correlation ≤ 1 ∧
  -1 ≤ r.leftRightBalance ∧ r.leftRightBalance ≤ 1 ∧
  0 ≤ r.midSideRatio ∧
  0 < r.confidence ∧ r.confidence ≤ 1 ∧
  (r.classification = 0 ∨ r.classification = 1 ∨ r.classification = 2)

instance (r : StereoRow) : Decidable r.Valid := by
  unfold StereoRow.Valid; infer_instance

/-- Support of the phase problem generator's draws. -/
def PhaseDraw.Valid (d : PhaseDraw) : Prop :=
  0 ≤ d.midSideRatio ∧ 0 ≤ d.stereoWidth ∧ d.stereoWidth ≤ 1 ∧ 0 ≤ d.u ∧ d.u < 1

instance (d : PhaseDraw) : Decidable d.Valid := by
  unfold PhaseDraw.Valid; infer_instance

/-- Row-validity invariant for a phase problem row. -/
def PhaseRow.Valid (r : PhaseRow) : Prop :=
  -1 ≤ r.correlation ∧ r.correlation ≤ 1 ∧
  0 ≤ r.midSideRatio ∧
  0 ≤ r.stereoWidth ∧ r.stereoWidth ≤ 1 ∧
  (r.hasIssue = 0 ∨ r.hasIssue = 1) ∧
  (r.severity = 0 ∨ r.severity = 1 ∨ r.severity = 2) ∧
  0 < r.confidence ∧ r.confidence ≤ 1

instance (r : PhaseRow) : Decidable r.Valid := by
  unfold PhaseRow.Valid; infer_instance

/-- Support of the frequency balance generator's draws: a Dirichlet sample has
each coordinate in `[0,1]` and the coordinates sum to 1.  The normal noise is
unconstrained. -/
def FreqDraw.Valid (d : FreqDraw) : Prop :=
  0 ≤ d.r0 ∧ d.r0 ≤ 1 ∧ 0 ≤ d.r1 ∧ d.r1 ≤ 1 ∧ 0 ≤ d.r2 ∧ d.r2 ≤ 1 ∧
  0 ≤ d.r3 ∧ d.r3 ≤ 1 ∧ 0 ≤ d.r4 ∧ d.r4 ≤ 1 ∧
  d.r0 + d.r1 + d.r2 + d.r3 + d.r4 = 1

instance (d : FreqDraw) : Decidable d.Valid := by
  unfold FreqDraw.Valid; infer_instance

/-- Row-validity invariant for a frequency balance row: band ratios in `[0,1]`
summing to 1 within `1e-6`, score in `[0,100]`, boolean `hasIssue`. -/
def FreqRow.Valid (r : FreqRow) : Prop :=
  0 ≤ r.bassRatio ∧ r.bassRatio ≤ 1 ∧
  0 ≤ r.lowMidRatio ∧ r.lowMidRatio ≤ 1 ∧
  0 ≤ r.midRatio ∧ r.midRatio ≤ 1 ∧
  0 ≤ r.highMidRatio ∧ r.highMidRatio ≤ 1 ∧
  0 ≤ r.highRatio ∧ r.highRatio ≤ 1 ∧
  |r.bassRatio + r.lowMidRatio + r.midRatio + r.highMidRatio + r.highRatio - 1|
    ≤ 1 / 1000000 ∧
  0 ≤ r.balanceScore ∧ r.balanceScore ≤ 100 ∧
  (r.hasIssue = 0 ∨ r.hasIssue = 1)

instance (r : FreqRow) : Decidable r.Valid := by
  unfold FreqRow.Valid; infer_instance

/-- Support of the overall quality generator's draws. -/
def QualityDraw.Valid (d : QualityDraw) : Prop :=
  0 ≤ d.stereoWidth ∧ d.stereoWidth ≤ 1 ∧
  0 ≤ d.r0 ∧ d.r0 ≤ 1 ∧ 0 ≤ d.r1 ∧ d.r1 ≤ 1 ∧ 0 ≤ d.r2 ∧ d.r2 ≤ 1 ∧
  0 ≤ d.r3 ∧ d.r3 ≤ 1 ∧ 0 ≤ d.r4 ∧ d.r4 ≤ 1 ∧
  d.r0 + d.r1 + d.r2 + d.r3 + d.r4 = 1

instance (d : QualityDraw) : Decidable d.Valid := by
  unfold QualityDraw.Valid; infer_instance

/-- Row-validity invariant for an overall quality row. -/
def QualityRow.Valid (r : QualityRow) : Prop :=
  0 ≤ r.stereoWidth ∧ r.stereoWidth ≤ 1 ∧
  -1 ≤ r.correlation ∧ r.correlation ≤ 1 ∧
  2 ≤ r.dynamicRange ∧ r.dynamicRange ≤ 25 ∧
  -20 ≤ r.peakLevel ∧ r.peakLevel ≤ 0 ∧
  0 ≤ r.bassRatio ∧ r.bassRatio ≤ 1 ∧
  0 ≤ r.lowMidRatio ∧ r.lowMidRatio ≤ 1 ∧
  0 ≤ r.midRatio ∧ r.midRatio ≤ 1 ∧
  0 ≤ r.highMidRatio ∧ r.highMidRatio ≤ 1 ∧
  0 ≤ r.highRatio ∧ r.highRatio ≤ 1 ∧
  |r.bassRatio + r.lowMidRatio + r.midRatio + r.highMidRatio + r.highRatio - 1|
    ≤ 1 / 1000000 ∧
  0 ≤ r.overallScore ∧ r.overallScore ≤ 100

instance (r : QualityRow) : Decidable r.Valid := by
  unfold QualityRow.Valid; infer_instance

/-! ## Pre-attenuation base confidences

The confidence value each branch of the source draws before the boundary
attenuation step multiplies it. -/

/-- The stereo width generator's base confidence: `0.7 + u*0.25` in the
`tooNarrow`/`tooWide` branches, `0.8 + u*0.2` in the `good` branch. -/
def stereoBaseConfidence (d : StereoDraw) : ℚ :=
  if d.stereoWidth < 0.3 then 0.7 + d.u * 0.25
  else if d.stereoWidth > 0.7 then 0.7 + d.u * 0.25
  else 0.8 + d.u * 0.2

/-- The phase problem generator's base confidence: `0.85 + u*0.15` for severe
and no-issue rows, `0.7 + u*0.25` for moderate rows. -/
def phaseBaseConfidence (d : PhaseDraw) : ℚ :=
  if npclip d.correlationRaw (-1) 1 < 0.3 then
    if npclip d.correlationRaw (-1) 1 < 0 then 0.85 + d.u * 0.15
    else 0.7 + d.u * 0.25
  else 0.85 + d.u * 0.15

/-! ## Concrete example draws -/

/-- Scenario A's features: stereoWidth 0.1, correlation 0.9,
leftRightBalance 0, midSideRatio 2 (with a mid-range noise draw). -/
def dNarrow : StereoDraw :=
  { stereoWidth := 0.1, correlationRaw := 0.9, leftRightBalanceRaw := 0,
    midSideRatio := 2, u := 0.5 }

/-- A phase draw realising Scenario C's `correlation = -0.5`. -/
def dSevere : PhaseDraw :=
  { correlationRaw := -0.5, midSideRatio := 2, stereoWidth := 0.5, u := 0.5 }

/-- Scenario D's features: band ratios exactly at the ideal vector. -/
def dIdeal : FreqDraw :=
  { r0 := 0.25, r1 := 0.15, r2 := 0.30, r3 := 0.18, r4 := 0.12, noise := 0 }

/-- Scenario E's features: width 0.5, correlation 0.8, dynamicRange 12,
peakLevel -3, ratios at the ideal vector. -/
def dQ : QualityDraw :=
  { stereoWidth := 0.5, correlationRaw := 0.8, dynamicRangeRaw := 12,
    peakLevelRaw := -3, r0 := 0.25, r1 := 0.15, r2 := 0.30, r3 := 0.18,
    r4 := 0.12, noise := 0 }

/-- A quality draw whose band-ratio mass sits entirely on the bass band. -/
def dFlat : QualityDraw :=
  { stereoWidth := 0.5, correlationRaw := 0.8, dynamicRangeRaw := 12,
    peakLevelRaw := -3, r0 := 1, r1 := 0, r2 := 0, r3 := 0, r4 := 0,
    noise := 0 }

/-- A stereo draw inside the lower boundary band (0.28, 0.32). -/
def dBand : StereoDraw :=
  { stereoWidth := 0.3, correlationRaw := 0.7, leftRightBalanceRaw := 0,
    midSideRatio := 1, u := 0.5 }

/-- A phase draw inside the attenuation band (0.25, 0.35). -/
def dPhaseBand : PhaseDraw :=
  { correlationRaw := 0.3, midSideRatio := 1, stereoWidth := 0.5, u := 0.5 }

/-! ## Helper lemmas -/

theorem le_npclip (x lo hi : ℚ) (h : lo ≤ hi) : lo ≤ npclip x lo hi :=
  le_min (le_max_right x lo) h

theorem npclip_le (x lo hi : ℚ) : npclip x lo hi ≤ hi := min_le_right _ _

theorem generate_stereo_length (draws : ℕ → StereoDraw) (n : ℤ) :
    (generate_stereo_width_data draws n).length = n.toNat := by
  simp [generate_stereo_width_data]

theorem generate_phase_length (draws : ℕ → PhaseDraw) (n : ℤ) :
    (generate_phase_problem_data draws n).length = n.toNat := by
  simp [generate_phase_problem_data]

theorem generate_freq_length (draws : ℕ → FreqDraw) (n : ℤ) :
    (generate_frequency_balance_data draws n).length = n.toNat := by
  simp [generate_frequency_balance_data]

theorem generate_quality_length (draws : ℕ → QualityDraw) (n : ℤ) :
    (generate_overall_quality_data draws n).length = n.toNat := by
  simp [generate_overall_quality_data]

/-! ## Claim C1 -/

/-- Claim C1 counterexample: at sample count 0 (and at -5) the stereo width
generator does not fail — it returns an (empty) Dataset, contradicting the
claim that every `N ≤ 0` fails with `InvalidArgument` and produces no Dataset
at all. -/
theorem C1_invalid_count_counterexample :
    generate_stereo_width_data (fun _ => dNarrow) 0 = [] ∧
    generate_stereo_width_data (fun _ => dNarrow) (-5) = [] :=
  ⟨rfl, rfl⟩

/-- Claim C1 (amended): for every sample count `N ≤ 0` the stereo width
generator raises no error and performs no sampling: it returns an empty
Dataset with zero rows. -/
theorem C1_nonpositive_count_yields_empty (draws : ℕ → StereoDraw) (n : ℤ)
    (h : n ≤ 0) : generate_stereo_width_data draws n = [] := by
  simp [generate_stereo_width_data, Int.toNat_of_nonpos h]

/-- Claim C1 witness: the amended statement at the concrete count -3. -/
theorem C1_witness :
    (-3 : ℤ) ≤ 0 ∧ generate_stereo_width_data (fun _ => dNarrow) (-3) = [] :=
  ⟨by norm_num, C1_nonpositive_count_yields_empty (fun _ => dNarrow) (-3) (by norm_num)⟩

/-! ## Claim C8 -/

/-- Claim C8: for every positive requested sample count `N`, each of the four
generator functions returns a Dataset of exactly `N` rows. -/
theorem C8_row_count (sdraws : ℕ → StereoDraw) (pdraws : ℕ → PhaseDraw)
    (fdraws : ℕ → FreqDraw) (qdraws : ℕ → QualityDraw) (n : ℤ) (h : 0 < n) :
    ((generate_stereo_width_data sdraws n).length : ℤ) = n ∧
    ((generate_phase_problem_data pdraws n).length : ℤ) = n ∧
    ((generate_frequency_balance_data fdraws n).length : ℤ) = n ∧
    ((generate_overall_quality_data qdraws n).length : ℤ) = n := by
  refine ⟨?_, ?_, ?_, ?_⟩ <;>
    simp [generate_stereo_length, generate_phase_length, generate_freq_length,
      generate_quality_length, Int.toNat_of_nonneg h.le]

/-- Claim C8 witness: at count 3 each generator returns 3 rows. -/
theorem C8_witness :
    (0 : ℤ) < 3 ∧
    (((generate_stereo_width_data (fun _ => dNarrow) 3).length : ℤ) = 3 ∧
     ((generate_phase_problem_data (fun _ => dSevere) 3).length : ℤ) = 3 ∧
     ((generate_frequency_balance_data (fun _ => dIdeal) 3).length : ℤ) = 3 ∧
     ((generate_overall_quality_data (fun _ => dQ) 3).length : ℤ) = 3) :=
  ⟨by norm_num,
   C8_row_count (fun _ => dNarrow) (fun _ => dSevere) (fun _ => dIdeal)
     (fun _ => dQ) 3 (by norm_num)⟩

/-! ## Claim C9 -/

/-- Claim C9: for every sample count `n ≤ 0`, each of the four generator
functions raises no error and returns an empty Dataset with zero rows. -/
theorem C9_nonpositive_count_all_empty (sdraws : ℕ → StereoDraw)
    (pdraws : ℕ → PhaseDraw) (fdraws : ℕ → FreqDraw) (qdraws : ℕ → QualityDraw)
    (n : ℤ) (h : n ≤ 0) :
    generate_stereo_width_data sdraws n = [] ∧
    generate_phase_problem_data pdraws n = [] ∧
    generate_frequency_balance_data fdraws n = [] ∧
    generate_overall_quality_data qdraws n = [] := by
  refine ⟨?_, ?_, ?_, ?_⟩ <;>
    simp [generate_stereo_width_data, generate_phase_problem_data,
      generate_frequency_balance_data, generate_overall_quality_data,
      Int.toNat_of_nonpos h]

/-- Claim C9 witness: at count -2 each generator returns the empty Dataset. -/
theorem C9_witness :
    (-2 : ℤ) ≤ 0 ∧
    (generate_stereo_width_data (fun _ => dNarrow) (-2) = [] ∧
     generate_phase_problem_data (fun _ => dSevere) (-2) = [] ∧
     generate_frequency_balance_data (fun _ => dIdeal) (-2) = [] ∧
     generate_overall_quality_data (fun _ => dQ) (-2) = []) :=
  ⟨by norm_num,
   C9_nonpositive_count_all_empty (fun _ => dNarrow) (fun _ => dSevere)
     (fun _ => dIdeal) (fun _ => dQ) (-2) (by norm_num)⟩

/-! ## Claim C2 -/

/-- Claim C2: in every stereo width row the classification is a deterministic
function of `stereoWidth` alone — `spec_classifyWidth` re-derives the stored
label from the stored feature, independent of the other features and of the
confidence noise draw; `tooNarrow` (0) iff `stereoWidth < 0.3`, `tooWide` (2)
iff `stereoWidth > 0.7`, `good` (1) otherwise; and `stereoWidth = 0.1` yields
`tooNarrow` regardless of the other draws. -/
theorem C2_stereo_label_deterministic (d : StereoDraw) :
    (stereoRow d).classification = spec_classifyWidth (stereoRow d).stereoWidth
    ∧ ((stereoRow d).classification = 0 ↔ (stereoRow d).stereoWidth < 0.3)
    ∧ ((stereoRow d).classification = 2 ↔ (stereoRow d).stereoWidth > 0.7)
    ∧ ((stereoRow d).classification = 1 ↔
        (0.3 ≤ (stereoRow d).stereoWidth ∧ (stereoRow d).stereoWidth ≤ 0.7))
    ∧ (d.stereoWidth = 0.1 → (stereoRow d).classification = 0) := by
  simp only [stereoRow, spec_classifyWidth]
  split_ifs with h1 h2 <;> simp_all <;> linarith

/-! ## Claim C3 -/

/-- Claim C3: in every phase problem row, `hasIssue` and `severity` are
deterministic functions of the (clipped) correlation alone, with mutually
exclusive branches: `correlation < 0` gives `hasIssue = 1`, `severity = 2`;
`0 ≤ correlation < 0.3` gives `hasIssue = 1`, `severity = 1`;
`correlation ≥ 0.3` gives `hasIssue = 0`, `severity = 0`; in particular
`correlation = -0.5` yields `hasIssue = 1`, `severity = 2`. -/
theorem C3_phase_label_deterministic (d : PhaseDraw) :
    (phaseRow d).hasIssue = spec_phaseHasIssue (phaseRow d).correlation
    ∧ (phaseRow d).severity = spec_phaseSeverity (phaseRow d).correlation
    ∧ ((phaseRow d).correlation < 0 →
        (phaseRow d).hasIssue = 1 ∧ (phaseRow d).severity = 2)
    ∧ (0 ≤ (phaseRow d).correlation ∧ (phaseRow d).correlation < 0.3 →
        (phaseRow d).hasIssue = 1 ∧ (phaseRow d).severity = 1)
    ∧ (0.3 ≤ (phaseRow d).correlation →
        (phaseRow d).hasIssue = 0 ∧ (phaseRow d).severity = 0)
    ∧ ((phaseRow d).correlation = -0.5 →
        (phaseRow d).hasIssue = 1 ∧ (phaseRow d).severity = 2) := by
  simp only [phaseRow, spec_phaseHasIssue, spec_phaseSeverity]
  split_ifs with h1 h2 <;> simp_all <;> linarith

/-! ## Claim C5 -/

/-- Claim C5: in every frequency balance row, `balanceScore` equals
`clip(100*(1 - min(avgDeviation*3, 1)) + noise, 0, 100)` where `avgDeviation`
is the mean of the five absolute deviations from the ideal vector, and
`hasIssue` holds exactly when the maximum deviation exceeds 0.15; ratios
exactly at the ideal vector give `avgDeviation = 0`, `maxDeviation = 0`, a
pre-noise score of exactly 100 and `hasIssue = 0`. -/
theorem C5_freq_balance_rule (d : FreqDraw) :
    (freqRow d).balanceScore =
      npclip (100 * (1 - min (avgDeviation d * 3) 1) + d.noise) 0 100
    ∧ ((freqRow d).hasIssue = 1 ↔ maxDeviation d > 0.15)
    ∧ ((freqRow d).hasIssue = 0 ↔ maxDeviation d ≤ 0.15)
    ∧ (d.r0 = 0.25 ∧ d.r1 = 0.15 ∧ d.r2 = 0.30 ∧ d.r3 = 0.18 ∧ d.r4 = 0.12 →
        avgDeviation d = 0 ∧ maxDeviation d = 0 ∧ freqBalancePreNoise d = 100 ∧
        (freqRow d).hasIssue = 0) := by
  refine ⟨rfl, ?_, ?_, ?_⟩
  · simp only [freqRow]; split_ifs with h <;> simp [h]
  · simp only [freqRow]; split_ifs with h <;> simp [h]; linarith
  · rintro ⟨h0, h1, h2, h3, h4⟩
    have ha : avgDeviation d = 0 := by
      simp [avgDeviation, freqDeviations, h0, h1, h2, h3, h4,
        ideal_bass, ideal_low_mid, ideal_mid, ideal_high_mid, ideal_high]
    have hm : maxDeviation d = 0 := by
      simp [maxDeviation, h0, h1, h2, h3, h4,
        ideal_bass, ideal_low_mid, ideal_mid, ideal_high_mid, ideal_high]
    refine ⟨ha, hm, ?_, ?_⟩
    · simp [freqBalancePreNoise, ha]
    · simp only [freqRow]; rw [hm]; norm_num

/-! ## Claim C6 -/

/-- Claim C6: boundary attenuation multiplies the already-drawn base
confidence by a fixed factor exactly when the deciding feature lies in an open
band around a threshold: by 0.7 in the stereo width generator iff
`stereoWidth ∈ (0.28,0.32) ∪ (0.68,0.72)`, and by 0.75 in the phase problem
generator iff the clipped correlation lies in `(0.25,0.35)`; outside the bands
the base confidence is unchanged. -/
theorem C6_boundary_attenuation (ds : StereoDraw) (dp : PhaseDraw) :
    (((0.28 < ds.stereoWidth ∧ ds.stereoWidth < 0.32) ∨
      (0.68 < ds.stereoWidth ∧ ds.stereoWidth < 0.72)) →
        (stereoRow ds).confidence = stereoBaseConfidence ds * 0.7)
    ∧ (¬ ((0.28 < ds.stereoWidth ∧ ds.stereoWidth < 0.32) ∨
        (0.68 < ds.stereoWidth ∧ ds.stereoWidth < 0.72)) →
        (stereoRow ds).confidence = stereoBaseConfidence ds)
    ∧ ((0.25 < (phaseRow dp).correlation ∧ (phaseRow dp).correlation < 0.35) →
        (phaseRow dp).confidence = phaseBaseConfidence dp * 0.75)
    ∧ (¬ (0.25 < (phaseRow dp).correlation ∧ (phaseRow dp).correlation < 0.35) →
        (phaseRow dp).confidence = phaseBaseConfidence dp) := by
  simp only [stereoRow, phaseRow, stereoBaseConfidence, phaseBaseConfidence]
  refine ⟨?_, ?_, ?_, ?_⟩ <;> intro h <;> split_ifs <;> simp_all

/-! ## Claim C4 -/

/-- Claim C4: in every overall quality row the stored score equals the
pre-noise score plus Normal(0,3) noise clipped to `[0,100]`, and the pre-noise
score equals 100 minus the independent additive penalties (15 for width
outside `[0.3,0.7]`; 30 for negative correlation, else 15 below 0.3; 10 for
dynamic range outside `[6,18]`; 10 for peak level above -1; plus
`mean(|ratio - ideal|) * 50`); Scenario E's features (width 0.5, correlation
0.8, dynamicRange 12, peakLevel -3, ideal ratios) give a pre-noise score of
exactly 100. -/
theorem C4_quality_score_decomposition (d : QualityDraw) :
    (qualityRow d).overallScore = npclip (overallPreNoise d + d.noise) 0 100
    ∧ overallPreNoise d =
        100 - spec_widthPenalty (qualityRow d).stereoWidth
          - spec_phasePenalty (qualityRow d).correlation
          - spec_dynamicRangePenalty (qualityRow d).dynamicRange
          - spec_peakPenalty (qualityRow d).peakLevel
          - spec_freqPenalty d.r0 d.r1 d.r2 d.r3 d.r4
    ∧ (d.stereoWidth = 0.5 ∧ (qualityRow d).correlation = 0.8 ∧
        (qualityRow d).dynamicRange = 12 ∧ (qualityRow d).peakLevel = -3 ∧
        d.r0 = 0.25 ∧ d.r1 = 0.15 ∧ d.r2 = 0.30 ∧ d.r3 = 0.18 ∧ d.r4 = 0.12 →
        overallPreNoise d = 100) := by
  refine ⟨rfl, ?_, ?_⟩
  · simp only [overallPreNoise, qualityRow, spec_widthPenalty, spec_phasePenalty,
      spec_dynamicRangePenalty, spec_peakPenalty, spec_freqPenalty]
    split_ifs <;> ring
  · rintro ⟨hw, hc, hd, hp, h0, h1, h2, h3, h4⟩
    simp only [qualityRow] at hc hd hp
    simp only [overallPreNoise, hw, hc, hd, hp, h0, h1, h2, h3, h4]
    norm_num

/-! ## Claim C10 -/

/-- On the probability simplex the summed absolute deviation from the ideal
vector is at most `2 - 2 * 0.12 = 1.76`, attained by putting all mass on the
band with the smallest ideal share. -/
theorem freq_abs_sum_le (r0 r1 r2 r3 r4 : ℚ)
    (h0 : 0 ≤ r0) (h1 : 0 ≤ r1) (h2 : 0 ≤ r2) (h3 : 0 ≤ r3) (h4 : 0 ≤ r4)
    (hsum : r0 + r1 + r2 + r3 + r4 = 1) :
    |r0 - 0.25| + |r1 - 0.15| + |r2 - 0.30| + |r3 - 0.18| + |r4 - 0.12| ≤ 1.76 := by
  rcases abs_cases (r0 - 0.25) with ⟨e0, s0⟩ | ⟨e0, s0⟩ <;>
  rcases abs_cases (r1 - 0.15) with ⟨e1, s1⟩ | ⟨e1, s1⟩ <;>
  rcases abs_cases (r2 - 0.30) with ⟨e2, s2⟩ | ⟨e2, s2⟩ <;>
  rcases abs_cases (r3 - 0.18) with ⟨e3, s3⟩ | ⟨e3, s3⟩ <;>
  rcases abs_cases (r4 - 0.12) with ⟨e4, s4⟩ | ⟨e4, s4⟩ <;>
  rw [e0, e1, e2, e3, e4] <;> norm_num <;> linarith

/-- Claim C10: whenever the five sampled ratios are nonnegative and sum to 1,
the overall quality generator's frequency penalty is at most 17.6 (= 88/5)
and the score before the Normal(0,3) noise and the final clip is at least
17.4 (= 87/5), since the remaining penalties total at most 65. -/
theorem C10_prenoise_lower_bound (d : QualityDraw)
    (h0 : 0 ≤ d.r0) (h1 : 0 ≤ d.r1) (h2 : 0 ≤ d.r2) (h3 : 0 ≤ d.r3)
    (h4 : 0 ≤ d.r4) (hsum : d.r0 + d.r1 + d.r2 + d.r3 + d.r4 = 1) :
    spec_freqPenalty d.r0 d.r1 d.r2 d.r3 d.r4 ≤ 88/5 ∧
    87/5 ≤ overallPreNoise d := by
  have key := freq_abs_sum_le d.r0 d.r1 d.r2 d.r3 d.r4 h0 h1 h2 h3 h4 hsum
  constructor
  · simp only [spec_freqPenalty]; linarith
  · simp only [overallPreNoise]
    split_ifs <;> linarith

/-- Claim C10 witness: all the band-ratio mass on the bass band. -/
theorem C10_witness :
    (0 ≤ dFlat.r0 ∧ 0 ≤ dFlat.r1 ∧ 0 ≤ dFlat.r2 ∧ 0 ≤ dFlat.r3 ∧
      0 ≤ dFlat.r4 ∧ dFlat.r0 + dFlat.r1 + dFlat.r2 + dFlat.r3 + dFlat.r4 = 1) ∧
    (spec_freqPenalty dFlat.r0 dFlat.r1 dFlat.r2 dFlat.r3 dFlat.r4 ≤ 88/5 ∧
      87/5 ≤ overallPreNoise dFlat) :=
  ⟨by norm_num [dFlat],
   C10_prenoise_lower_bound dFlat (by norm_num [dFlat]) (by norm_num [dFlat])
     (by norm_num [dFlat]) (by norm_num [dFlat]) (by norm_num [dFlat])
     (by norm_num [dFlat])⟩

/-! ## Claim C7 -/

theorem stereoRow_valid (d : StereoDraw) (h : d.Valid) : (stereoRow d).Valid := by
  obtain ⟨hw0, hw1, hm, hu0, hu1⟩ := h
  refine ⟨hw0, hw1, le_npclip _ _ _ (by norm_num), npclip_le _ _ _,
    le_npclip _ _ _ (by norm_num), npclip_le _ _ _, hm, ?_, ?_, ?_⟩
  · simp only [stereoRow]; split_ifs <;> nlinarith
  · simp only [stereoRow]; split_ifs <;> nlinarith
  · simp only [stereoRow]; split_ifs <;> simp

theorem phaseRow_valid (d : PhaseDraw) (h : d.Valid) : (phaseRow d).Valid := by
  obtain ⟨hm, hw0, hw1, hu0, hu1⟩ := h
  refine ⟨le_npclip _ _ _ (by norm_num), npclip_le _ _ _, hm, hw0, hw1,
    ?_, ?_, ?_, ?_⟩
  · simp only [phaseRow]; split_ifs <;> simp
  · simp only [phaseRow]; split_ifs <;> simp
  · simp only [phaseRow]; split_ifs <;> nlinarith
  · simp only [phaseRow]; split_ifs <;> nlinarith

theorem freqRow_valid (d : FreqDraw) (h : d.Valid) : (freqRow d).Valid := by
  obtain ⟨h00, h01, h10, h11, h20, h21, h30, h31, h40, h41, hsum⟩ := h
  refine ⟨h00, h01, h10, h11, h20, h21, h30, h31, h40, h41, ?_, ?_, ?_, ?_⟩
  · simp only [freqRow]; rw [hsum]; norm_num
  · exact le_npclip _ _ _ (by norm_num)
  · exact npclip_le _ _ _
  · simp only [freqRow]; split_ifs <;> simp

theorem qualityRow_valid (d : QualityDraw) (h : d.Valid) : (qualityRow d).Valid := by
  obtain ⟨hw0, hw1, h00, h01, h10, h11, h20, h21, h30, h31, h40, h41, hsum⟩ := h
  refine ⟨hw0, hw1, le_npclip _ _ _ (by norm_num), npclip_le _ _ _,
    le_npclip _ _ _ (by norm_num), npclip_le _ _ _,
    le_npclip _ _ _ (by norm_num), npclip_le _ _ _,
    h00, h01, h10, h11, h20, h21, h30, h31, h40, h41, ?_,
    le_npclip _ _ _ (by norm_num), npclip_le _ _ _⟩
  simp only [qualityRow]; rw [hsum]; norm_num

/-- Claim C7: when every raw draw lies in its distribution's support, every
generated row of each of the four generators satisfies the row-validity
invariant (feature domains, confidence in `(0,1]`, scores in `[0,100]`, band
ratios summing to 1 within `1e-6`, labels in their fixed enumerations). -/
theorem C7_generated_rows_valid (sdraws : ℕ → StereoDraw)
    (pdraws : ℕ → PhaseDraw) (fdraws : ℕ → FreqDraw) (qdraws : ℕ → QualityDraw)
    (n : ℤ) (hs : ∀ i, (sdraws i).Valid) (hp : ∀ i, (pdraws i).Valid)
    (hf : ∀ i, (fdraws i).Valid) (hq : ∀ i, (qdraws i).Valid) :
    (∀ r ∈ generate_stereo_width_data sdraws n, r.Valid) ∧
    (∀ r ∈ generate_phase_problem_data pdraws n, r.Valid) ∧
    (∀ r ∈ generate_frequency_balance_data fdraws n, r.Valid) ∧
    (∀ r ∈ generate_overall_quality_data qdraws n, r.Valid) := by
  refine ⟨?_, ?_, ?_, ?_⟩ <;> intro r hr
  · obtain ⟨i, -, rfl⟩ := List.mem_map.mp hr
    exact stereoRow_valid _ (hs i)
  · obtain ⟨i, -, rfl⟩ := List.mem_map.mp hr
    exact phaseRow_valid _ (hp i)
  · obtain ⟨i, -, rfl⟩ := List.mem_map.mp hr
    exact freqRow_valid _ (hf i)
  · obtain ⟨i, -, rfl⟩ := List.mem_map.mp hr
    exact qualityRow_valid _ (hq i)

/-- Claim C7 witness: concrete valid draw streams, count 2. -/
theorem C7_witness :
    (∀ r ∈ generate_stereo_width_data (fun _ => dNarrow) 2, r.Valid) ∧
    (∀ r ∈ generate_phase_problem_data (fun _ => dSevere) 2, r.Valid) ∧
    (∀ r ∈ generate_frequency_balance_data (fun _ => dIdeal) 2, r.Valid) ∧
    (∀ r ∈ generate_overall_quality_data (fun _ => dQ) 2, r.Valid) :=
  C7_generated_rows_valid (fun _ => dNarrow) (fun _ => dSevere)
    (fun _ => dIdeal) (fun _ => dQ) 2
    (fun _ => by norm_num [StereoDraw.Valid, dNarrow])
    (fun _ => by norm_num [PhaseDraw.Valid, dSevere])
    (fun _ => by norm_num [FreqDraw.Valid, dIdeal])
    (fun _ => by norm_num [QualityDraw.Valid, dQ])

end MixDoctor
